import Mathlib

/-!
Shallow embedding of the event-handling core of `src/main.rs` (the
`handle_ldk_events` dispatcher of an LDK sample node), together with the
data model it manipulates.  Byte arrays (payment hashes, preimages,
secrets, scripts, addresses, raw/serialized transactions) are modelled as
`Nat` identifiers; external collaborators (the bitcoind wallet client, the
keys manager, the channel manager's fallible calls, SHA-256) are modelled
as an environment record of pure oracles, so that every theorem quantifies
over their possible answers.  Rust panics (`assert!`, `unwrap`, `expect`)
are modelled by an `Except` result whose error carries the state at the
moment of the panic: effects performed before the panic persist, and the
enclosing event loop terminates abnormally.
-/

namespace LdkSample

/-- Rust `enum HTLCStatus { Pending, Succeeded, Failed }` from main.rs. -/
inductive HTLCStatus
  | Pending
  | Succeeded
  | Failed
  deriving DecidableEq, Repr

/-- Rust `struct MillisatAmount(Option<u64>)` from main.rs. -/
structure MillisatAmount where
  amt : Option Nat
  deriving DecidableEq, Repr

/-- Rust `struct PaymentInfo` from main.rs: optional preimage, optional secret,
status, optional millisatoshi amount. -/
structure PaymentInfo where
  preimage : Option Nat
  secret : Option Nat
  status : HTLCStatus
  amt_msat : MillisatAmount
  deriving DecidableEq, Repr

/-- Rust `bitcoin::Network` (the variants matched in main.rs). -/
inductive Network
  | Bitcoin
  | Testnet
  | Regtest
  | Signet
  deriving DecidableEq, Repr

/-- Rust `bitcoin_bech32::constants::Network` (the three variants main.rs maps to). -/
inductive Bech32Network
  | Bitcoin
  | Testnet
  | Regtest
  deriving DecidableEq, Repr

/-- Rust `ConfirmationTarget` as used in main.rs (`ConfirmationTarget::Normal`). -/
inductive ConfirmationTarget
  | Background
  | Normal
  | HighPriority
  deriving DecidableEq, Repr

/-- The result of `fund_raw_transaction`: funded tx hex and the change
position chosen by the wallet (an integer: bitcoind reports `-1` when no
change output exists). -/
structure FundedTx where
  hex : Nat
  changepos : Int
  deriving DecidableEq, Repr

/-- The result of `sign_raw_transaction_with_wallet`: signed tx hex and the
completeness flag. -/
structure SignedTx where
  hex : Nat
  complete : Bool
  deriving DecidableEq, Repr

/-- The LDK events handled by the `match` in `handle_ldk_events`.
`PaymentReceived.payment_preimage` is optional, exactly as in the LDK event
type; `PaymentSent` carries only a preimage and no hash;
`PendingHTLCsForwardable.time_forwardable` is a duration in milliseconds. -/
inductive Event
  | FundingGenerationReady (temporary_channel_id : Nat)
      (channel_value_satoshis : Nat) (output_script : Nat)
  | PaymentReceived (payment_hash : Nat) (payment_preimage : Option Nat)
      (payment_secret : Nat) (amt : Nat)
  | PaymentSent (payment_preimage : Nat)
  | PaymentFailed (payment_hash : Nat) (rejected_by_dest : Bool)
  | PendingHTLCsForwardable (time_forwardable : Nat)
  | SpendableOutputs (outputs : List Nat)
  deriving DecidableEq, Repr

/-- The distinct Rust panics (`assert!`, `unwrap`, `expect`, `panic!`) that
can occur inside the event `match` of `handle_ldk_events`. -/
inductive Panic
  | signetUnsupported
  | witnessProgramFailed
  | changeposInvalid
  | signIncomplete
  | hexDecodeFailed
  | deserializeFailed
  | fundingGeneratedErr
  | preimageMissingUnwrap
  | spendOutputsErr
  | rngEmptyRange
  deriving DecidableEq, Repr

/-- The external collaborators of `handle_ldk_events`, as pure oracles:
the bitcoind wallet client, hex/consensus codecs, the channel manager's
fallible operations, the keys manager, and SHA-256.  `network` is the
`network : Network` argument of `handle_ldk_events`. -/
structure Env where
  network : Network
  /-- Rust `WitnessProgram::from_scriptpubkey(script, bech32_net)`, `None` when
  the script is not a SegWit output (the `.expect(...)` case). -/
  from_scriptpubkey : Nat → Bech32Network → Option Nat
  /-- Rust `bitcoind_client.create_raw_transaction(outputs)`: outputs is the
  one-entry address→amount map; the amount, a satoshi value in the event,
  is passed to the RPC as the f64 `sats / 100_000_000.0`; we keep it in
  satoshis (the conversion is an injective change of unit). -/
  create_raw_transaction : List (Nat × Nat) → Nat
  /-- Rust `bitcoind_client.fund_raw_transaction(raw_tx)`. -/
  fund_raw_transaction : Nat → FundedTx
  /-- Rust `bitcoind_client.sign_raw_transaction_with_wallet(hex)`. -/
  sign_raw_transaction_with_wallet : Nat → SignedTx
  /-- Rust `hex_utils::to_vec(hex)`, `None` on a bad hex string (the `.unwrap()`). -/
  to_vec : Nat → Option (List Nat)
  /-- Rust `encode::deserialize(bytes)`, `none` on a decode error (the `.unwrap()`). -/
  deserialize : List Nat → Option Nat
  /-- Whether `channel_manager.funding_transaction_generated(temp_id, tx)`
  returns `Ok` (its `.unwrap()` panics on `Err`, after the call was made). -/
  funding_transaction_generated_ok : Nat → Nat → Bool
  /-- Rust `channel_manager.claim_funds(preimage)`. -/
  claim_funds : Nat → Bool
  /-- Rust `bitcoind_client.get_new_address()`. -/
  get_new_address : Nat
  /-- Rust `address.script_pubkey()`. -/
  script_pubkey : Nat → Nat
  /-- Rust `bitcoind_client.get_est_sat_per_1000_weight(target)`. -/
  get_est_sat_per_1000_weight : ConfirmationTarget → Nat
  /-- Rust `keys_manager.spend_spendable_outputs(descriptors, extra_inputs,
  destination_script, feerate)`, `none` on `Err` (the `.unwrap()`). -/
  spend_spendable_outputs : List Nat → List Nat → Nat → Nat → Option Nat
  /-- Rust `Sha256::hash` on a 32-byte preimage. -/
  sha256 : Nat → Nat

/-- The mutable state touched by one dispatcher task: the two payment
tables (`HashMap<PaymentHash, PaymentInfo>`, modelled as association lists
with the key in the first component), plus logs of the externally visible
effects: funding transactions handed to the channel manager, claim-funds
calls made, transactions broadcast, forward-processing tasks spawned (the
`time_forwardable` of each), and the events fully handled so far (ghost
instrumentation recording completion order). -/
structure DispatchState where
  inbound_payments : List (Nat × PaymentInfo)
  outbound_payments : List (Nat × PaymentInfo)
  engine_funding_calls : List (Nat × Nat)
  claimed : List Nat
  broadcast_txs : List Nat
  spawned_forwards : List Nat
  handled : List Event
  deriving DecidableEq, Repr

/-- The `match network { .. }` computing the bech32 network:
`Signet => panic!("Signet unsupported")`. -/
def bech32_of_network : Network → Except Panic Bech32Network
  | Network.Bitcoin => Except.ok Bech32Network.Bitcoin
  | Network.Testnet => Except.ok Bech32Network.Testnet
  | Network.Regtest => Except.ok Bech32Network.Regtest
  | Network.Signet => Except.error Panic.signetUnsupported

/-- Rust `HashMap::contains_key` on the association-list model. -/
def contains_key : List (Nat × PaymentInfo) → Nat → Bool
  | [], _ => false
  | kv :: rest, k => if kv.1 = k then true else contains_key rest k

/-- Rust `HashMap::get` on the association-list model: the record stored
under a key, if any (observer used by the theorems below). -/
def lookup : List (Nat × PaymentInfo) → Nat → Option PaymentInfo
  | [], _ => none
  | kv :: rest, k => if kv.1 = k then some kv.2 else lookup rest k

/-- The `Entry::Occupied` arm of the `PaymentReceived` handler: update the
existing record in place — status, preimage and secret are overwritten,
the stored amount is left untouched. -/
def update_inbound (status : HTLCStatus) (pre sec : Nat) :
    List (Nat × PaymentInfo) → Nat → List (Nat × PaymentInfo)
  | [], _ => []
  | kv :: rest, k =>
    if kv.1 = k then
      (kv.1, { kv.2 with status := status, preimage := some pre, secret := some sec }) ::
        update_inbound status pre sec rest k
    else kv :: update_inbound status pre sec rest k

/-- The `PaymentFailed` handler's mutation: `get_mut(..)` then
`payment.status = HTLCStatus::Failed`, unconditionally on the current
status. -/
def fail_outbound : List (Nat × PaymentInfo) → Nat → List (Nat × PaymentInfo)
  | [], _ => []
  | kv :: rest, k =>
    if kv.1 = k then (kv.1, { kv.2 with status := HTLCStatus.Failed }) :: fail_outbound rest k
    else kv :: fail_outbound rest k

/-- The `PaymentSent` handler's loop over `payments.iter_mut()`: every
entry whose key equals the derived hash is set to `Succeeded` with the
preimage recorded; all other entries are untouched. -/
def succeed_outbound (hashed pre : Nat) (m : List (Nat × PaymentInfo)) :
    List (Nat × PaymentInfo) :=
  m.map (fun kv =>
    if kv.1 = hashed then
      (kv.1, { kv.2 with preimage := some pre, status := HTLCStatus.Succeeded })
    else kv)

/-- rand 0.7 `Rng::gen_range(low, high)`: a uniform sample from the
half-open range `[low, high)`; constructing the range panics when
`low >= high`.  The sample is determined by an abstract seed; any seed
yields a value in the range. -/
def gen_range (low high seed : Nat) : Except Panic Nat :=
  if low < high then Except.ok (low + seed % (high - low))
  else Except.error Panic.rngEmptyRange

/-- The body of the task spawned by the `PendingHTLCsForwardable` handler:
`min = time_forwardable.as_millis() as u64` (a `u64` cast), then
`thread_rng().gen_range(min, min * 5)` in wrapping `u64` arithmetic,
giving the milliseconds slept before
`forwarding_channel_manager.process_pending_htlc_forwards()` is invoked.
A panic here kills only this spawned task, never the dispatcher. -/
def forward_task_delay (time_forwardable seed : Nat) : Except Panic Nat :=
  let min := time_forwardable % 2 ^ 64
  gen_range min (min * 5 % 2 ^ 64) seed

/-- One arm of the event `match` in `handle_ldk_events`, acting on the
dispatcher state.  A Rust panic is an `Except.error` carrying the panic
kind and the state at that moment (effects already performed persist). -/
def handle_event (env : Env) (st : DispatchState) :
    Event → Except (Panic × DispatchState) DispatchState
  | Event.FundingGenerationReady temporary_channel_id channel_value_satoshis
      output_script =>
    match bech32_of_network env.network with
    | Except.error p => Except.error (p, st)
    | Except.ok bech32_net =>
      match env.from_scriptpubkey output_script bech32_net with
      | none => Except.error (Panic.witnessProgramFailed, st)
      | some addr =>
        let raw_tx := env.create_raw_transaction [(addr, channel_value_satoshis)]
        let funded_tx := env.fund_raw_transaction raw_tx
        let change_output_position := funded_tx.changepos
        if change_output_position = 0 ∨ change_output_position = 1 then
          let signed_tx := env.sign_raw_transaction_with_wallet funded_tx.hex
          if signed_tx.complete = true then
            match env.to_vec signed_tx.hex with
            | none => Except.error (Panic.hexDecodeFailed, st)
            | some bytes =>
              match env.deserialize bytes with
              | none => Except.error (Panic.deserializeFailed, st)
              | some final_tx =>
                -- the call to funding_transaction_generated is made, then
                -- its Result is unwrapped
                let st' := { st with
                  engine_funding_calls := st.engine_funding_calls ++
                    [(temporary_channel_id, final_tx)] }
                if env.funding_transaction_generated_ok temporary_channel_id final_tx then
                  Except.ok st'
                else Except.error (Panic.fundingGeneratedErr, st')
          else Except.error (Panic.signIncomplete, st)
        else Except.error (Panic.changeposInvalid, st)
  | Event.PaymentReceived payment_hash payment_preimage payment_secret amt =>
    match payment_preimage with
    | none => Except.error (Panic.preimageMissingUnwrap, st)
    | some pre =>
      let st₁ := { st with claimed := st.claimed ++ [pre] }
      let status :=
        if env.claim_funds pre then HTLCStatus.Succeeded else HTLCStatus.Failed
      if contains_key st₁.inbound_payments payment_hash then
        Except.ok { st₁ with
          inbound_payments := update_inbound status pre payment_secret
            st₁.inbound_payments payment_hash }
      else
        Except.ok { st₁ with inbound_payments := st₁.inbound_payments ++
          [(payment_hash,
            { preimage := some pre, secret := some payment_secret, status := status,
              amt_msat := ⟨some amt⟩ })] }
  | Event.PaymentSent payment_preimage =>
    let hashed := env.sha256 payment_preimage
    Except.ok { st with
      outbound_payments := succeed_outbound hashed payment_preimage
        st.outbound_payments }
  | Event.PaymentFailed payment_hash _rejected_by_dest =>
    if contains_key st.outbound_payments payment_hash then
      Except.ok { st with
        outbound_payments := fail_outbound st.outbound_payments payment_hash }
    else Except.ok st
  | Event.PendingHTLCsForwardable time_forwardable =>
    -- tokio::spawn: the delay and the later panic possibility live in the
    -- spawned task (forward_task_delay); the dispatcher only records the
    -- spawn and moves on.
    Except.ok { st with spawned_forwards := st.spawned_forwards ++ [time_forwardable] }
  | Event.SpendableOutputs outputs =>
    let destination_address := env.get_new_address
    let tx_feerate := env.get_est_sat_per_1000_weight ConfirmationTarget.Normal
    match env.spend_spendable_outputs outputs []
        (env.script_pubkey destination_address) tx_feerate with
    | none => Except.error (Panic.spendOutputsErr, st)
    | some spending_tx =>
      Except.ok { st with broadcast_txs := st.broadcast_txs ++ [spending_tx] }

/-- The `for event in events` loop: events are processed strictly in list
order; a panic in one handler aborts the loop (and the async task), leaving
the remaining events unprocessed.  Each fully handled event is appended to
the ghost `handled` log. -/
def process_events (env : Env) :
    DispatchState → List Event → Except (Panic × DispatchState) DispatchState
  | st, [] => Except.ok st
  | st, e :: rest =>
    match handle_event env st e with
    | Except.ok st' => process_events env { st' with handled := st'.handled ++ [e] } rest
    | Except.error pst => Except.error pst

/-- One drain-and-dispatch cycle: `channel_manager.get_and_clear_pending_events()`
followed by `events.append(&mut chain_monitor.get_and_clear_pending_events())` —
the engine's events first, then the chain monitor's, one concatenated batch. -/
def dispatcher_cycle (env : Env) (st : DispatchState)
    (manager_events monitor_events : List Event) :
    Except (Panic × DispatchState) DispatchState :=
  process_events env st (manager_events ++ monitor_events)

/-- How one iteration of the outer `loop` of `handle_ldk_events` ends. -/
inductive CycleOutcome
  | Shutdown
  | Continue (st : DispatchState)
  | Panicked (p : Panic) (st : DispatchState)
  deriving DecidableEq, Repr

/-- One iteration of the outer `loop`: `event_receiver.recv()` yields
`none` exactly when the notification channel is closed, upon which the
function returns (`Shutdown`); otherwise the cycle's batch is processed and
the loop continues — unless a handler panics, which ends the task
abnormally. -/
def dispatcher_step (env : Env) (st : DispatchState) (received : Option Unit)
    (manager_events monitor_events : List Event) : CycleOutcome :=
  match received with
  | none => CycleOutcome.Shutdown
  | some _ =>
    match dispatcher_cycle env st manager_events monitor_events with
    | Except.ok st' => CycleOutcome.Continue st'
    | Except.error (p, st') => CycleOutcome.Panicked p st'

/-! Concrete collaborator environments and states, used by the witnesses
and counterexamples below. -/

/-- A fully cooperative collaborator environment: every wallet, codec,
engine and signer call succeeds. -/
def okEnv : Env where
  network := Network.Regtest
  from_scriptpubkey := fun script _ => some (script + 1)
  create_raw_transaction := fun outs => (outs.map (fun kv => kv.1 + kv.2)).sum
  fund_raw_transaction := fun raw => { hex := raw + 1, changepos := 1 }
  sign_raw_transaction_with_wallet := fun hex => { hex := hex + 1, complete := true }
  to_vec := fun hex => some [hex]
  deserialize := fun bytes => some bytes.sum
  funding_transaction_generated_ok := fun _ _ => true
  claim_funds := fun _ => true
  get_new_address := 5
  script_pubkey := fun a => a * 2
  get_est_sat_per_1000_weight := fun _ => 253
  spend_spendable_outputs := fun outs _ _ _ => some (outs.sum + 1)
  sha256 := fun p => p + 1000

/-- Like `okEnv`, but the wallet reports incomplete signing of the funding
transaction. -/
def signFailEnv : Env :=
  { okEnv with sign_raw_transaction_with_wallet :=
      fun hex => { hex := hex + 1, complete := false } }

/-- Like `okEnv`, but the wallet funds the transaction without a change
output, reporting change position `-1`. -/
def changeposBadEnv : Env :=
  { okEnv with fund_raw_transaction := fun raw => { hex := raw + 1, changepos := -1 } }

/-- Like `okEnv`, but the keys manager fails to sign the sweep transaction. -/
def sweepFailEnv : Env :=
  { okEnv with spend_spendable_outputs := fun _ _ _ _ => none }

/-- The dispatcher state at startup: both payment tables empty, no effects
performed. -/
def emptyState : DispatchState :=
  { inbound_payments := [], outbound_payments := [], engine_funding_calls := [],
    claimed := [], broadcast_txs := [], spawned_forwards := [], handled := [] }

/-- A state whose outbound table holds three pending attempts, two of them
sharing the payment hash `1007` (which is `okEnv.sha256 7`). -/
def multiOutState : DispatchState :=
  { emptyState with outbound_payments :=
      [(1007, ⟨none, none, HTLCStatus.Pending, ⟨some 10⟩⟩),
       (8, ⟨none, none, HTLCStatus.Pending, ⟨some 20⟩⟩),
       (1007, ⟨none, some 2, HTLCStatus.Pending, ⟨some 30⟩⟩)] }

/-- The state after `PaymentSent` with preimage `7` hits `multiOutState`. -/
def sentRes : DispatchState :=
  ((handle_event okEnv multiOutState (Event.PaymentSent 7)).toOption).getD emptyState

/-- A state whose outbound table holds one record that already reached
`Succeeded` (hash `1007`, preimage `7` recorded). -/
def succOutState : DispatchState :=
  { emptyState with outbound_payments :=
      [(1007, ⟨some 7, none, HTLCStatus.Succeeded, ⟨some 10⟩⟩)] }

/-- The state after a `PaymentFailed` for hash `1007` hits `succOutState`. -/
def failRes : DispatchState :=
  ((handle_event okEnv succOutState (Event.PaymentFailed 1007 false)).toOption).getD
    emptyState

/-- A state whose inbound table holds a pending record for hash `11` with
no amount recorded yet. -/
def inb11State : DispatchState :=
  { emptyState with inbound_payments :=
      [(11, ⟨none, some 9, HTLCStatus.Pending, ⟨none⟩⟩)] }

/-- The state after a successfully claimed `PaymentReceived` (hash `11`,
preimage `3`, secret `9`, amount `1000` msat) hits `inb11State`. -/
def recvRes : DispatchState :=
  ((handle_event okEnv inb11State
      (Event.PaymentReceived 11 (some 3) 9 1000)).toOption).getD emptyState

/-- The state after one full dispatcher cycle over a three-event batch
(two engine events, one chain-monitor event) from the startup state. -/
def cycleRes : DispatchState :=
  ((dispatcher_cycle okEnv emptyState
      [Event.PaymentSent 7, Event.PendingHTLCsForwardable 10]
      [Event.PaymentFailed 3 false]).toOption).getD emptyState

/-! Supporting lemmas about the table operations and the event loop. -/

theorem contains_key_eq_isSome (m : List (Nat × PaymentInfo)) (k : Nat) :
    contains_key m k = (lookup m k).isSome := by
  induction m with
  | nil => rfl
  | cons kv rest ih =>
    by_cases hk : kv.1 = k
    · simp [contains_key, lookup, hk]
    · simp [contains_key, lookup, hk, ih]

theorem lookup_fail_outbound (m : List (Nat × PaymentInfo)) (k : Nat) :
    lookup (fail_outbound m k) k =
      (lookup m k).map (fun r => { r with status := HTLCStatus.Failed }) := by
  induction m with
  | nil => rfl
  | cons kv rest ih =>
    by_cases hk : kv.1 = k
    · simp [fail_outbound, lookup, hk]
    · simp [fail_outbound, lookup, hk, ih]

theorem lookup_update_inbound (s : HTLCStatus) (pre sec : Nat)
    (m : List (Nat × PaymentInfo)) (k : Nat) :
    lookup (update_inbound s pre sec m k) k =
      (lookup m k).map (fun r =>
        { r with status := s, preimage := some pre, secret := some sec }) := by
  induction m with
  | nil => rfl
  | cons kv rest ih =>
    by_cases hk : kv.1 = k
    · simp [update_inbound, lookup, hk]
    · simp [update_inbound, lookup, hk, ih]

theorem update_inbound_keys (s : HTLCStatus) (pre sec : Nat)
    (m : List (Nat × PaymentInfo)) (k : Nat) :
    (update_inbound s pre sec m k).map Prod.fst = m.map Prod.fst := by
  induction m with
  | nil => rfl
  | cons kv rest ih =>
    by_cases hk : kv.1 = k <;> simp [update_inbound, hk, ih]

/-- No arm of the event `match` touches the ghost `handled` log. -/
theorem handle_event_handled (env : Env) (st : DispatchState) (e : Event)
    (st' : DispatchState) (hok : handle_event env st e = Except.ok st') :
    st'.handled = st.handled := by
  cases e <;> simp only [handle_event] at hok <;> (repeat' split at hok) <;>
    cases hok <;> rfl

/-- A completed `for` loop appends exactly the given events, in order, to
the ghost `handled` log. -/
theorem process_events_handled (env : Env) :
    ∀ (es : List Event) (st st' : DispatchState),
      process_events env st es = Except.ok st' →
      st'.handled = st.handled ++ es := by
  intro es
  induction es with
  | nil =>
    intro st st' h
    cases h
    simp
  | cons e rest ih =>
    intro st st' h
    simp only [process_events] at h
    cases hev : handle_event env st e with
    | error pst => rw [hev] at h; cases h
    | ok stm =>
      rw [hev] at h
      have hrest := ih _ _ h
      have hh := handle_event_handled env st e stm hev
      simp only [hrest, hh]
      simp

/-- C10.  Processing a `PaymentReceived` event whose optional preimage is
absent panics the dispatcher: `payment_preimage.unwrap()` aborts before
`claim_funds` is called and before any record is stored (the error state is
the unmodified input state), and the remaining events of the batch are
never processed. -/
theorem C10_missing_preimage_panics (env : Env) (st : DispatchState)
    (h sec amt : Nat) (rest : List Event) :
    handle_event env st (Event.PaymentReceived h none sec amt) =
      Except.error (Panic.preimageMissingUnwrap, st) ∧
    process_events env st (Event.PaymentReceived h none sec amt :: rest) =
      Except.error (Panic.preimageMissingUnwrap, st) :=
  ⟨rfl, rfl⟩

/-- C9 (amended).  One loop iteration ends in the terminal `Shutdown`
outcome exactly when `event_receiver.recv()` reports the notification
channel closed; with the channel open the iteration either continues or
panics (so channel closure is the sole clean exit, though not the sole
exit). -/
theorem C9_shutdown_iff_channel_closed (env : Env) (st : DispatchState)
    (received : Option Unit) (mgr mon : List Event) :
    dispatcher_step env st received mgr mon = CycleOutcome.Shutdown ↔
      received = none := by
  cases received with
  | none => simp [dispatcher_step]
  | some u =>
    simp only [dispatcher_step]
    cases hc : dispatcher_cycle env st mgr mon with
    | ok s => simp
    | error ps => cases ps; simp

/-- C9 witness: with the channel closed, the step is `Shutdown`. -/
theorem C9_shutdown_iff_channel_closed_witness :
    dispatcher_step okEnv emptyState none [] [] = CycleOutcome.Shutdown :=
  (C9_shutdown_iff_channel_closed okEnv emptyState none [] []).mpr rfl

/-- C9 counterexample: with the channel still open (`recv` returned a
signal), a batch whose event panics makes the loop exit abnormally — the
loop exits without the channel having closed, refuting that channel
closure is the sole condition under which the loop exits. -/
theorem C9_panic_exits_loop_cex :
    dispatcher_step okEnv emptyState (some ())
        [Event.PaymentReceived 5 none 1 2] [] =
      CycleOutcome.Panicked Panic.preimageMissingUnwrap emptyState ∧
    (some () : Option Unit) ≠ none :=
  ⟨rfl, by decide⟩

/-- C1 (amended).  A `PaymentFailed` event for a payment hash present in
the outbound table overwrites that record's status to `Failed`
unconditionally — in particular a record already `Succeeded` regresses to
`Failed`; the inbound table is untouched. -/
theorem C1_paymentFailed_overwrites_status (env : Env) (st st' : DispatchState)
    (h : Nat) (r : Bool) (rec : PaymentInfo)
    (hrec : lookup st.outbound_payments h = some rec)
    (hstep : handle_event env st (Event.PaymentFailed h r) = Except.ok st') :
    lookup st'.outbound_payments h =
      some { rec with status := HTLCStatus.Failed } ∧
    st'.inbound_payments = st.inbound_payments := by
  have hck : contains_key st.outbound_payments h = true := by
    rw [contains_key_eq_isSome, hrec]
    rfl
  simp only [handle_event, hck] at hstep
  simp only [if_true] at hstep
  cases hstep
  constructor
  · rw [lookup_fail_outbound, hrec]
    rfl
  · rfl

/-- C1 witness: applying the theorem to a concrete `Succeeded` outbound
record shows the record observed `Failed` afterwards. -/
theorem C1_paymentFailed_overwrites_status_witness :
    lookup failRes.outbound_payments 1007 =
      some ⟨some 7, none, HTLCStatus.Failed, ⟨some 10⟩⟩ := by
  have h := C1_paymentFailed_overwrites_status okEnv succOutState failRes 1007 false
    ⟨some 7, none, HTLCStatus.Succeeded, ⟨some 10⟩⟩ rfl rfl
  exact h.1

/-- C1 counterexample: starting from a pending outbound record for hash
`1007`, a `PaymentSent` event (preimage `7`, whose hash is `1007`) marks it
`Succeeded`; subsequently processing a stale `PaymentFailed` event for the
same hash changes the status to `Failed` — the claimed monotonicity fails
on the code. -/
theorem C1_stale_failure_regresses_succeeded_cex :
    ((process_events okEnv
        { emptyState with outbound_payments :=
            [(1007, ⟨none, none, HTLCStatus.Pending, ⟨some 1000⟩⟩)] }
        [Event.PaymentSent 7]).map
        (fun st => st.outbound_payments.map (fun kv => (kv.1, kv.2.status))) =
      Except.ok [(1007, HTLCStatus.Succeeded)]) ∧
    ((process_events okEnv
        { emptyState with outbound_payments :=
            [(1007, ⟨none, none, HTLCStatus.Pending, ⟨some 1000⟩⟩)] }
        [Event.PaymentSent 7, Event.PaymentFailed 1007 true]).map
        (fun st => st.outbound_payments.map (fun kv => (kv.1, kv.2.status))) =
      Except.ok [(1007, HTLCStatus.Failed)]) :=
  ⟨rfl, rfl⟩

/-- C8 (amended).  A `PendingHTLCsForwardable` event never blocks or
panics the dispatcher: the handler only records the spawned forwarding
task and moves on.  For a minimum delay `m` with `0 < m` and `5 m` within
`u64`, the spawned task draws its sleep from the half-open range
`[m, 5 m)` (any rng draw lands there).  For `m = 0` see the
counterexample: the spawned task panics instead. -/
theorem C8_forward_delay_bounds (env : Env) (st : DispatchState) (m seed : Nat)
    (hm : 0 < m) (hw : m * 5 < 2 ^ 64) :
    handle_event env st (Event.PendingHTLCsForwardable m) =
      Except.ok { st with spawned_forwards := st.spawned_forwards ++ [m] } ∧
    ∃ d, forward_task_delay m seed = Except.ok d ∧ m ≤ d ∧ d < m * 5 := by
  have hle : m ≤ m * 5 := by omega
  have hmlt : m < 2 ^ 64 := lt_of_le_of_lt hle hw
  have hmod : m % 2 ^ 64 = m := Nat.mod_eq_of_lt hmlt
  have hmod5 : m * 5 % 2 ^ 64 = m * 5 := Nat.mod_eq_of_lt hw
  have hlt : m < m * 5 := by omega
  refine ⟨rfl, m + seed % (m * 5 - m), ?_, ?_, ?_⟩
  · simp only [forward_task_delay, gen_range, hmod, hmod5, if_pos hlt]
  · omega
  · have hx : seed % (m * 5 - m) < m * 5 - m :=
      Nat.mod_lt seed (show 0 < m * 5 - m by omega)
    omega

/-- C8 witness: for the engine-specified minimum `100` ms and rng draw
`907`, the delay exists and lies in `[100, 500)`. -/
theorem C8_forward_delay_bounds_witness :
    handle_event okEnv emptyState (Event.PendingHTLCsForwardable 100) =
      Except.ok { emptyState with spawned_forwards := [100] } ∧
    ∃ d, forward_task_delay 100 907 = Except.ok d ∧ 100 ≤ d ∧ d < 100 * 5 := by
  have h := C8_forward_delay_bounds okEnv emptyState 100 907 (by decide)
    (by norm_num)
  exact h

/-- C8 counterexample: for an engine-specified minimum of `0` ms the
spawned task's `gen_range(0, 0)` panics, so no delay is drawn and
`process_pending_htlc_forwards` is never invoked for that event (the
dispatcher itself is unaffected, having already recorded the spawn). -/
theorem C8_zero_delay_panics_cex :
    forward_task_delay 0 0 = Except.error Panic.rngEmptyRange ∧
    handle_event okEnv emptyState (Event.PendingHTLCsForwardable 0) =
      Except.ok { emptyState with spawned_forwards := [0] } :=
  ⟨rfl, rfl⟩

/-- C4 (amended).  A dispatcher cycle processes the engine's pending
events followed by the chain monitor's as one concatenated batch, strictly
in order; when no handler panics, every event of the batch is fully
processed (the ghost log gains exactly the batch, in order).  A panicking
handler instead aborts the cycle with the rest of the batch unprocessed
(see the counterexample). -/
theorem C4_batch_processed_in_order (env : Env) (st st' : DispatchState)
    (mgr mon : List Event)
    (hok : dispatcher_cycle env st mgr mon = Except.ok st') :
    dispatcher_cycle env st mgr mon = process_events env st (mgr ++ mon) ∧
    st'.handled = st.handled ++ (mgr ++ mon) :=
  ⟨rfl, process_events_handled env (mgr ++ mon) st st' hok⟩

/-- C4 witness: a concrete three-event cycle (two engine events, then one
chain-monitor event) completes with exactly those events handled, in drain
order. -/
theorem C4_batch_processed_in_order_witness :
    cycleRes.handled =
      [Event.PaymentSent 7, Event.PendingHTLCsForwardable 10,
        Event.PaymentFailed 3 false] := by
  have h := C4_batch_processed_in_order okEnv emptyState cycleRes
    [Event.PaymentSent 7, Event.PendingHTLCsForwardable 10]
    [Event.PaymentFailed 3 false] rfl
  exact h.2.trans (by decide)

/-- C4 counterexample: a batch of two events in which the first panics
(a `PaymentReceived` without preimage) aborts the cycle: the second event
(drained from the chain monitor at the start of the cycle) is never
processed, refuting that every event present at the start of a cycle is
fully processed. -/
theorem C4_panic_skips_batch_cex :
    dispatcher_cycle okEnv emptyState [Event.PaymentReceived 5 none 1 2]
        [Event.PaymentSent 7] =
      Except.error (Panic.preimageMissingUnwrap, emptyState) :=
  rfl

theorem succeed_outbound_get (hashed pre : Nat) :
    ∀ (m : List (Nat × PaymentInfo)) (i : Nat) (hi : i < m.length)
      (hi' : i < (succeed_outbound hashed pre m).length),
      (succeed_outbound hashed pre m).get ⟨i, hi'⟩ =
        if (m.get ⟨i, hi⟩).1 = hashed then
          ((m.get ⟨i, hi⟩).1,
            { (m.get ⟨i, hi⟩).2 with preimage := some pre, status := HTLCStatus.Succeeded })
        else m.get ⟨i, hi⟩ := by
  intro m
  induction m with
  | nil => intro i hi _; exact absurd hi (Nat.not_lt_zero i)
  | cons kv rest ih =>
    intro i hi hi'
    cases i with
    | zero => rfl
    | succ j =>
      exact ih j (Nat.lt_of_succ_lt_succ hi) (Nat.lt_of_succ_lt_succ hi')

/-- C3 (amended).  A `PaymentReceived` event carrying a preimage claims the
funds and then marks or inserts the inbound record under the payment hash:
an existing record is updated in place (status from the claim outcome,
preimage and secret overwritten, the stored amount left unchanged) with
the table's keys untouched (no duplication); a fresh hash is inserted with
the claim outcome, preimage, secret and the delivered amount.  The
outbound table is untouched. -/
theorem C3_paymentReceived_marks_record (env : Env) (st st' : DispatchState)
    (h pre sec amt : Nat)
    (hstep : handle_event env st (Event.PaymentReceived h (some pre) sec amt) =
      Except.ok st') :
    (∀ rec, lookup st.inbound_payments h = some rec →
      lookup st'.inbound_payments h = some
        { rec with
            status := if env.claim_funds pre then HTLCStatus.Succeeded
              else HTLCStatus.Failed,
            preimage := some pre, secret := some sec } ∧
      st'.inbound_payments.map Prod.fst = st.inbound_payments.map Prod.fst) ∧
    (lookup st.inbound_payments h = none →
      st'.inbound_payments = st.inbound_payments ++
        [(h, { preimage := some pre, secret := some sec,
               status := if env.claim_funds pre then HTLCStatus.Succeeded
                 else HTLCStatus.Failed,
               amt_msat := ⟨some amt⟩ })]) ∧
    st'.outbound_payments = st.outbound_payments := by
  simp only [handle_event] at hstep
  split at hstep
  · cases hstep
    rename_i hck
    refine ⟨?_, ?_, rfl⟩
    · intro rec hrec
      constructor
      · show lookup (update_inbound _ pre sec st.inbound_payments h) h = _
        rw [lookup_update_inbound, hrec]
        rfl
      · show (update_inbound _ pre sec st.inbound_payments h).map Prod.fst = _
        exact update_inbound_keys _ pre sec st.inbound_payments h
    · intro hnone
      have hck' : contains_key st.inbound_payments h = true := hck
      rw [contains_key_eq_isSome, hnone] at hck'
      cases hck'
  · cases hstep
    rename_i hck
    refine ⟨?_, ?_, rfl⟩
    · intro rec hrec
      have hck' : ¬contains_key st.inbound_payments h = true := hck
      rw [contains_key_eq_isSome, hrec] at hck'
      exact absurd rfl hck'
    · intro _
      rfl

/-- C3 witness: an occupied inbound record for hash `11` (pending, amount
unknown) hit by a successfully claimed receipt of `1000` msat with
preimage `3` and secret `9` is updated in place to `Succeeded` with that
preimage and secret, keys unchanged. -/
theorem C3_paymentReceived_marks_record_witness :
    lookup recvRes.inbound_payments 11 =
      some ⟨some 3, some 9, HTLCStatus.Succeeded, ⟨none⟩⟩ ∧
    recvRes.inbound_payments.map Prod.fst = [11] := by
  have h := C3_paymentReceived_marks_record okEnv inb11State recvRes 11 3 9 1000 rfl
  have h1 := h.1 ⟨none, some 9, HTLCStatus.Pending, ⟨none⟩⟩ rfl
  exact ⟨h1.1.trans (by decide), h1.2.trans (by decide)⟩

/-- C3 counterexample: the same successful claim scenario, but the claim
requires the updated record to carry the delivered amount (`1000` msat);
the in-place update leaves the stored amount unchanged (`unknown` here),
so the record does not carry the delivered amount. -/
theorem C3_occupied_amount_stale_cex :
    handle_event okEnv inb11State (Event.PaymentReceived 11 (some 3) 9 1000) =
      Except.ok { emptyState with
        inbound_payments := [(11, ⟨some 3, some 9, HTLCStatus.Succeeded, ⟨none⟩⟩)],
        claimed := [3] } ∧
    (⟨none⟩ : MillisatAmount) ≠ ⟨some 1000⟩ :=
  ⟨rfl, by decide⟩

/-- C5.  A `PaymentSent` event carries only the revealed preimage; the
lookup key is `Sha256(preimage)` (the event supplies no hash to trust),
and every outbound entry whose key equals that derived hash — every one of
them, if several share the hash — is updated to `Succeeded` with the
preimage recorded, while entries under any other key and the inbound
table are untouched; no entry is added or removed. -/
theorem C5_paymentSent_updates_by_hashed_preimage (env : Env)
    (st st' : DispatchState) (p : Nat)
    (hstep : handle_event env st (Event.PaymentSent p) = Except.ok st') :
    st'.inbound_payments = st.inbound_payments ∧
    st'.outbound_payments.length = st.outbound_payments.length ∧
    ∀ i (hi : i < st.outbound_payments.length)
      (hi' : i < st'.outbound_payments.length),
      ((st.outbound_payments.get ⟨i, hi⟩).1 = env.sha256 p →
        st'.outbound_payments.get ⟨i, hi'⟩ =
          ((st.outbound_payments.get ⟨i, hi⟩).1,
            { (st.outbound_payments.get ⟨i, hi⟩).2 with
                preimage := some p, status := HTLCStatus.Succeeded })) ∧
      ((st.outbound_payments.get ⟨i, hi⟩).1 ≠ env.sha256 p →
        st'.outbound_payments.get ⟨i, hi'⟩ = st.outbound_payments.get ⟨i, hi⟩) := by
  simp only [handle_event] at hstep
  cases hstep
  refine ⟨rfl, ?_, ?_⟩
  · show (succeed_outbound (env.sha256 p) p st.outbound_payments).length = _
    simp [succeed_outbound]
  · intro i hi hi'
    have hget := succeed_outbound_get (env.sha256 p) p st.outbound_payments i hi hi'
    constructor
    · intro hkey
      show (succeed_outbound (env.sha256 p) p st.outbound_payments).get ⟨i, hi'⟩ = _
      rw [hget, if_pos hkey]
    · intro hkey
      show (succeed_outbound (env.sha256 p) p st.outbound_payments).get ⟨i, hi'⟩ = _
      rw [hget, if_neg hkey]

/-- C5 witness: in a table with two attempts sharing hash `1007`
(= `okEnv.sha256 7`) and one other attempt under hash `8`, a `PaymentSent`
revealing preimage `7` updates both matching entries to `Succeeded` with
the preimage and leaves the other untouched. -/
theorem C5_paymentSent_updates_by_hashed_preimage_witness :
    sentRes.outbound_payments.get ⟨0, by decide⟩ =
      (1007, ⟨some 7, none, HTLCStatus.Succeeded, ⟨some 10⟩⟩) ∧
    sentRes.outbound_payments.get ⟨2, by decide⟩ =
      (1007, ⟨some 7, some 2, HTLCStatus.Succeeded, ⟨some 30⟩⟩) ∧
    sentRes.outbound_payments.get ⟨1, by decide⟩ =
      (8, ⟨none, none, HTLCStatus.Pending, ⟨some 20⟩⟩) := by
  have h := C5_paymentSent_updates_by_hashed_preimage okEnv multiOutState sentRes 7 rfl
  have h0 := (h.2.2 0 (by decide) (by decide)).1 (by decide)
  have h2 := (h.2.2 2 (by decide) (by decide)).1 (by decide)
  have h1 := (h.2.2 1 (by decide) (by decide)).2 (by decide)
  exact ⟨h0.trans (by decide), h2.trans (by decide), h1.trans (by decide)⟩

/-- C2 (amended).  A failure at any checked step of funding-transaction
construction (unsupported network, non-SegWit script, invalid change
position, incomplete signing, hex-decode or deserialize failure, or the
engine rejecting the hand-off) panics the dispatcher task: unless the
failure is the hand-off rejection itself, the state at the panic is the
unmodified input state — in particular no transaction was handed to the
protocol engine — and on a hand-off rejection exactly one transaction had
just been handed over; in every case the remaining events of the batch are
not processed (the loop aborts instead of continuing). -/
theorem C2_funding_failure_panics (env : Env) (st st' : DispatchState)
    (tid v script : Nat) (p : Panic) (rest : List Event)
    (hstep : handle_event env st (Event.FundingGenerationReady tid v script) =
      Except.error (p, st')) :
    (p ≠ Panic.fundingGeneratedErr → st' = st) ∧
    (p = Panic.fundingGeneratedErr → ∃ tx,
      st'.engine_funding_calls = st.engine_funding_calls ++ [(tid, tx)]) ∧
    process_events env st (Event.FundingGenerationReady tid v script :: rest) =
      Except.error (p, st') := by
  have hrest : process_events env st
      (Event.FundingGenerationReady tid v script :: rest) =
      Except.error (p, st') := by
    simp only [process_events, hstep]
  refine ⟨?_, ?_, hrest⟩ <;>
  · simp only [handle_event] at hstep
    cases hn : env.network <;> simp only [hn, bech32_of_network] at hstep <;>
      repeat' split at hstep
    all_goals cases hstep
    all_goals intro hp
    all_goals first
      | rfl
      | (exact absurd rfl hp)
      | (exact ⟨_, rfl⟩)
      | (exact absurd hp (by simp))

/-- C2 witness: when the wallet reports incomplete signing, the funding
event's processing stops with the signing panic, the state untouched (no
transaction handed to the engine), and a following event never runs. -/
theorem C2_funding_failure_panics_witness :
    process_events signFailEnv emptyState
      [Event.FundingGenerationReady 1 100000 42, Event.PaymentSent 9] =
      Except.error (Panic.signIncomplete, emptyState) :=
  (C2_funding_failure_panics signFailEnv emptyState emptyState 1 100000 42
    Panic.signIncomplete [Event.PaymentSent 9] rfl).2.2

/-- C2 counterexample: a funding-construction failure (incomplete signing)
crashes the event loop: the batch's second event is left unprocessed,
refuting that the dispatcher survives the failure and continues the
batch.  (No transaction was handed over, so that part of the claim holds;
the crash and the abandoned batch refute the rest.) -/
theorem C2_funding_failure_aborts_batch_cex :
    dispatcher_cycle signFailEnv emptyState
      [Event.FundingGenerationReady 1 100000 42, Event.PaymentSent 7] [] =
      Except.error (Panic.signIncomplete, emptyState) :=
  rfl

/-- C6 (amended).  The change position reported by the wallet is validated
(by `assert!`) to be 0 or 1; any other value panics the dispatcher task
with the state unmodified — the funding attempt is aborted with no
transaction handed to the engine, but so is the remainder of the event
batch (and thus all further event dispatch), not just the single in-flight
attempt; the enclosing OS process survives the task panic. -/
theorem C6_changepos_validation (env : Env) (st : DispatchState)
    (tid v script addr : Nat) (bnet : Bech32Network) (rest : List Event)
    (hnet : bech32_of_network env.network = Except.ok bnet)
    (haddr : env.from_scriptpubkey script bnet = some addr)
    (hpos : ¬((env.fund_raw_transaction
          (env.create_raw_transaction [(addr, v)])).changepos = 0 ∨
        (env.fund_raw_transaction
          (env.create_raw_transaction [(addr, v)])).changepos = 1)) :
    handle_event env st (Event.FundingGenerationReady tid v script) =
      Except.error (Panic.changeposInvalid, st) ∧
    process_events env st (Event.FundingGenerationReady tid v script :: rest) =
      Except.error (Panic.changeposInvalid, st) := by
  have h1 : handle_event env st (Event.FundingGenerationReady tid v script) =
      Except.error (Panic.changeposInvalid, st) := by
    simp only [handle_event, hnet, haddr]
    rw [if_neg hpos]
  exact ⟨h1, by simp only [process_events, h1]⟩

/-- C6 witness: the wallet reporting change position `-1` (no change
output) trips the validation: the funding event panics with the state
unchanged and a following event never runs. -/
theorem C6_changepos_validation_witness :
    handle_event changeposBadEnv emptyState
        (Event.FundingGenerationReady 1 100000 42) =
      Except.error (Panic.changeposInvalid, emptyState) ∧
    process_events changeposBadEnv emptyState
        [Event.FundingGenerationReady 1 100000 42, Event.PaymentSent 9] =
      Except.error (Panic.changeposInvalid, emptyState) :=
  C6_changepos_validation changeposBadEnv emptyState 1 100000 42 43
    Bech32Network.Regtest [Event.PaymentSent 9] rfl rfl (by decide)

/-- C6 counterexample: an invalid change position does not abort only the
single in-flight funding attempt — the panic also abandons the rest of the
batch: with change position `-1`, a two-event cycle errors out and the
second event is never processed. -/
theorem C6_changepos_panic_aborts_batch_cex :
    dispatcher_cycle changeposBadEnv emptyState
      [Event.FundingGenerationReady 1 100000 42, Event.PaymentSent 7] [] =
      Except.error (Panic.changeposInvalid, emptyState) :=
  rfl

/-- C7 (amended).  When the keys manager fails to sign the sweep for a
`SpendableOutputs` event, the handler panics with the state unmodified:
no transaction is broadcast and the outputs are recorded nowhere locally —
but the failure is not confined to the sweep attempt: the panic also
aborts the remaining events of the batch and ends the dispatcher task. -/
theorem C7_sweep_sign_failure_panics (env : Env) (st : DispatchState)
    (outs : List Nat) (rest : List Event)
    (hsign : env.spend_spendable_outputs outs []
        (env.script_pubkey env.get_new_address)
        (env.get_est_sat_per_1000_weight ConfirmationTarget.Normal) = none) :
    handle_event env st (Event.SpendableOutputs outs) =
      Except.error (Panic.spendOutputsErr, st) ∧
    process_events env st (Event.SpendableOutputs outs :: rest) =
      Except.error (Panic.spendOutputsErr, st) := by
  have h1 : handle_event env st (Event.SpendableOutputs outs) =
      Except.error (Panic.spendOutputsErr, st) := by
    simp only [handle_event, hsign]
  exact ⟨h1, by simp only [process_events, h1]⟩

/-- C7 witness: a concrete failed sweep signing over outputs `[1, 2]`
panics with the startup state untouched (so `broadcast_txs` is still
empty and the outputs appear in no table), and a following event never
runs. -/
theorem C7_sweep_sign_failure_panics_witness :
    handle_event sweepFailEnv emptyState (Event.SpendableOutputs [1, 2]) =
      Except.error (Panic.spendOutputsErr, emptyState) ∧
    process_events sweepFailEnv emptyState
        [Event.SpendableOutputs [1, 2], Event.PaymentSent 9] =
      Except.error (Panic.spendOutputsErr, emptyState) :=
  C7_sweep_sign_failure_panics sweepFailEnv emptyState [1, 2]
    [Event.PaymentSent 9] rfl

/-- C7 counterexample: the signing failure is not fatal only to the sweep
attempt — a two-event cycle whose first event is the failed sweep aborts
before the second event is processed (and with it the dispatcher task). -/
theorem C7_sweep_sign_failure_cex :
    dispatcher_cycle sweepFailEnv emptyState
      [Event.SpendableOutputs [1, 2], Event.PaymentSent 7] [] =
      Except.error (Panic.spendOutputsErr, emptyState) :=
  rfl

end LdkSample
